import Mathlib

/-!
Shallow embedding of `src/app.py` (web3_privacy_scorer), a CLI that scores a
Web3 project profile from five boolean flags and renders it as text or a
minimal JSON-like object. Definitions mirror the Python source; theorems
settle the specification claims.
-/

namespace Web3PrivacyScorer

/-- The `PrivacyProfile` dataclass of `src/app.py` (lines 7-15): a name, a
description, and five boolean feature flags, in declaration order. -/
structure PrivacyProfile where
  name : String
  description : String
  uses_zk : Bool
  uses_fhe : Bool
  open_source : Bool
  audited : Bool
  soundness_focus : Bool
deriving DecidableEq

/-- The `PROFILES` registry (lines 18-46): a Python dict, embedded as an
association list that preserves insertion order (Python dicts iterate in
insertion order). -/
def PROFILES : List (String × PrivacyProfile) :=
  [("aztec",
    { name := "Aztec-like L2"
      description := "Inspired by Aztec: zk rollup with privacy-preserving smart contracts."
      uses_zk := true
      uses_fhe := false
      open_source := true
      audited := true
      soundness_focus := true }),
   ("zama",
    { name := "Zama-like FHE stack"
      description := "Inspired by Zama: fully homomorphic encryption for Web3 and cryptography."
      uses_zk := false
      uses_fhe := true
      open_source := true
      audited := false
      soundness_focus := true }),
   ("soundness",
    { name := "Soundness-focused lab"
      description := "Inspired by soundness research labs: formal verification and proofs first."
      uses_zk := true
      uses_fhe := false
      open_source := false
      audited := true
      soundness_focus := true })]

/-- Dict lookup `PROFILES[key]` / membership `key in PROFILES`: first
association-list entry with the given key, if any. -/
def getProfile (key : String) : Option PrivacyProfile :=
  (PROFILES.find? (fun kp => kp.1 = key)).map (fun kp => kp.2)

/-- `score_profile` (lines 49-61): start from 0, add 30 for `uses_zk`, 30 for
`uses_fhe`, 15 for `open_source`, 15 for `audited`, 10 for `soundness_focus`,
then `min(score, 100)`. Python ints are modelled as `Int`. -/
def score_profile (p : PrivacyProfile) : Int :=
  let score : Int := 0
  let score := if p.uses_zk then score + 30 else score
  let score := if p.uses_fhe then score + 30 else score
  let score := if p.open_source then score + 15 else score
  let score := if p.audited then score + 15 else score
  let score := if p.soundness_focus then score + 10 else score
  min score 100

/-- Text for a boolean flag in `summarize_profile`: Python
`'yes' if b else 'no'`. -/
def yesNo (b : Bool) : String :=
  if b then "yes" else "no"

/-- `summarize_profile` (lines 64-85): the human-readable multi-line report,
returned as a single string joined with newlines. -/
def summarize_profile (p : PrivacyProfile) : String :=
  let score := score_profile p
  let flags : List String :=
    ["Uses zero-knowledge proofs: " ++ yesNo p.uses_zk,
     "Uses fully homomorphic encryption: " ++ yesNo p.uses_fhe,
     "Open source code: " ++ yesNo p.open_source,
     "External audits: " ++ yesNo p.audited,
     "Formal soundness focus: " ++ yesNo p.soundness_focus]
  let lines : List String :=
    ["Name: " ++ p.name, "Description: " ++ p.description, "", "Features:"]
      ++ flags.map (fun f => "  - " ++ f)
      ++ ["", "Estimated privacy-strength score: " ++ toString score ++ "/100", "",
          "Note: This score is a toy heuristic for educational purposes only.",
          "Always rely on official audits, specifications, and documentation."]
  String.intercalate "\n" lines

/-- Python `str.replace` on character lists: scan left to right, replacing
each non-overlapping occurrence of `pat` by `rep`. (For the empty pattern
Python inserts `rep` around every character; the source only uses a
one-character pattern, and this model returns the scanned suffix unchanged
for an empty pattern.) -/
def replaceList (pat rep : List Char) : List Char → List Char
  | [] => []
  | c :: rest =>
    if h : pat ≠ [] ∧ pat.isPrefixOf (c :: rest) then
      rep ++ replaceList pat rep ((c :: rest).drop pat.length)
    else
      c :: replaceList pat rep rest
termination_by l => l.length
decreasing_by
  · have hp : 0 < pat.length := List.length_pos.mpr h.1
    simp only [List.length_drop, List.length_cons]
    omega
  · simp

/-- Python `s.replace(pat, rep)` on strings. -/
def pyReplace (s pat rep : String) : String :=
  String.mk (replaceList pat.data rep.data s.data)

/-- The string escaping of `export_json` (line 118):
`str(v).replace('"', '\\"')`. -/
def quoteEscape (s : String) : String :=
  pyReplace s "\"" "\\\""

/-- A Python value stored in the `asdict` dictionary of `export_json`:
a string, a bool, or an int. -/
inductive JVal where
  | s (v : String)
  | b (v : Bool)
  | i (v : Int)
deriving DecidableEq

/-- The value rendering of `export_json` (lines 113-118): booleans first
(Python checks `isinstance(v, bool)` before `isinstance(v, int)`), then ints
via `str`, then everything else quoted with `"` escaped to `\"`. -/
def jvalRender : JVal → String
  | .b v => if v then "true" else "false"
  | .i v => toString v
  | .s v => "\"" ++ quoteEscape v ++ "\""

/-- The dictionary built by `export_json` (lines 109-110): `asdict(profile)`
in dataclass field order, then `score` appended. -/
def profileItems (p : PrivacyProfile) : List (String × JVal) :=
  [("name", .s p.name),
   ("description", .s p.description),
   ("uses_zk", .b p.uses_zk),
   ("uses_fhe", .b p.uses_fhe),
   ("open_source", .b p.open_source),
   ("audited", .b p.audited),
   ("soundness_focus", .b p.soundness_focus),
   ("score", .i (score_profile p))]

/-- The `parts` list of `export_json` (lines 111-121): opening brace, one
two-space-indented line per key with a trailing comma on all but the last,
closing brace. -/
def exportJsonParts (p : PrivacyProfile) : List String :=
  let data := profileItems p
  ["\x7b"]
    ++ (data.enum.map (fun iv =>
          let comma := if iv.1 < data.length - 1 then "," else ""
          "  \"" ++ iv.2.1 ++ "\": " ++ jvalRender iv.2.2 ++ comma))
    ++ ["\x7d"]

/-- `export_json` (lines 107-122): the parts joined with newlines. -/
def export_json (p : PrivacyProfile) : String :=
  String.intercalate "\n" (exportJsonParts p)

/-- The argparse namespace of `main` (lines 126-166): `--profile`, `--name`
and `--description` are `str` options defaulting to `None` (`Option String`);
the rest are `store_true` flags defaulting to `False`. -/
structure Args where
  profile : Option String := none
  custom : Bool := false
  name : Option String := none
  description : Option String := none
  zk : Bool := false
  fhe : Bool := false
  open_source : Bool := false
  audited : Bool := false
  soundness : Bool := false
  list_profiles : Bool := false
  json : Bool := false
deriving DecidableEq

/-- Python `x or default` for an optional string: `None` and the empty string
are falsy, so both fall back to the default. -/
def orDefault (x : Option String) (default : String) : String :=
  match x with
  | none => default
  | some s => if s = "" then default else s

/-- `profile_from_args` (lines 88-98): build a custom profile from the flags,
with fallback name and description. -/
def profile_from_args (args : Args) : PrivacyProfile :=
  { name := orDefault args.name "Custom Web3 project"
    description := orDefault args.description "User-defined Web3 project privacy profile."
    uses_zk := args.zk
    uses_fhe := args.fhe
    open_source := args.open_source
    audited := args.audited
    soundness_focus := args.soundness }

/-- `list_profiles` (lines 101-104): the lines it prints, a header followed
by `- key: name` for each registry entry in order. -/
def listProfilesLines : List String :=
  "Built-in example profiles related to Web3 privacy and soundness:"
    :: PROFILES.map (fun kp => "- " ++ kp.1 ++ ": " ++ kp.2.name)

/-- Lower-case one character: Python `str.lower` restricted to ASCII
(`A`-`Z` shifted to `a`-`z`, everything else unchanged); the registry keys
are pure ASCII. -/
def lowerChar (c : Char) : Char :=
  if 'A' ≤ c ∧ c ≤ 'Z' then Char.ofNat (c.toNat + 32) else c

/-- Python `s.lower()` character by character. -/
def pyLower (s : String) : String :=
  String.mk (s.data.map lowerChar)

/-- Python truthiness of `args.profile` in `if args.profile:` (line 172):
`None` and the empty string are falsy. -/
def profileTruthy (x : Option String) : Bool :=
  match x with
  | none => false
  | some s => s ≠ ""

/-- The render step of `main` (lines 182-185): one print of either the JSON
export or the text summary. -/
def renderLines (args : Args) (p : PrivacyProfile) : List String :=
  if args.json then [export_json p] else [summarize_profile p]

/-- The body of `main` after parsing (lines 168-185): the list of strings
passed to `print`, in order. `list_profiles` wins first; then a truthy
`--profile` is lower-cased and looked up, printing the unknown-key listing
when absent; otherwise a custom profile is built from the flags. -/
def runMain (args : Args) : List String :=
  if args.list_profiles then
    listProfilesLines
  else if profileTruthy args.profile then
    match getProfile (pyLower (args.profile.getD "")) with
    | none => "Unknown profile key. Available options:" :: listProfilesLines
    | some p => renderLines args p
  else
    renderLines args (profile_from_args args)

/-- Outcome of one CLI invocation: exit status, the strings printed to
stdout, and the parse-error message on stderr if parsing failed. -/
structure CliResult where
  exitCode : Nat
  stdout : List String
  stderr : Option String
deriving DecidableEq

/-- argparse's test for an option-like token: it begins with `-`. A token
that looks like an option is not accepted as the value of a value-taking
option. -/
def optionLike (v : String) : Bool :=
  match v.data with
  | c :: _ => c = '-'
  | [] => false

/-- Set a `store_true` flag of `Args` by option name, if the name is one of
the declared flags. -/
def setFlag (t : String) (a : Args) : Option Args :=
  if t = "--custom" then some { a with custom := true }
  else if t = "--zk" then some { a with zk := true }
  else if t = "--fhe" then some { a with fhe := true }
  else if t = "--open-source" then some { a with open_source := true }
  else if t = "--audited" then some { a with audited := true }
  else if t = "--soundness" then some { a with soundness := true }
  else if t = "--list-profiles" then some { a with list_profiles := true }
  else if t = "--json" then some { a with json := true }
  else none

/-- Store a value-taking option of `Args` by option name, if the name is one
of the declared `str` options. -/
def setValue (t v : String) (a : Args) : Option Args :=
  if t = "--profile" then some { a with profile := some v }
  else if t = "--name" then some { a with name := some v }
  else if t = "--description" then some { a with description := some v }
  else none

/-- The argparse parse loop for the options declared in `main`
(lines 126-166), over space-separated argv tokens. Value-taking options
consume the next token and reject a missing or option-like (`-`-prefixed)
value; `--profile` and `--custom` are in a mutually exclusive group, so
whichever of the two comes second is rejected when the other was already
seen; unrecognized tokens are rejected. (Prefix abbreviations and `--opt=value`
spellings of real argparse are not modelled.) -/
def parseTokens : List String → Args → Except String Args
  | [], a => Except.ok a
  | t :: rest, a =>
    if t = "--profile" ∨ t = "--name" ∨ t = "--description" then
      if t = "--profile" ∧ a.custom then
        Except.error "argument --profile: not allowed with argument --custom"
      else
        match rest with
        | [] => Except.error ("argument " ++ t ++ ": expected one argument")
        | v :: rest2 =>
          if optionLike v then
            Except.error ("argument " ++ t ++ ": expected one argument")
          else
            match setValue t v a with
            | some a2 => parseTokens rest2 a2
            | none => Except.error ("unrecognized arguments: " ++ t)
    else if t = "--custom" ∧ (a.profile.isSome) then
      Except.error "argument --custom: not allowed with argument --profile"
    else
      match setFlag t a with
      | some a2 => parseTokens rest a2
      | none => Except.error ("unrecognized arguments: " ++ t)

/-- One whole invocation: parse argv, then run `main`'s body. argparse
reports usage errors on stderr and exits with status 2; a successful parse
always runs to completion and exits with status 0. -/
def runCli (argv : List String) : CliResult :=
  match parseTokens argv {} with
  | Except.error e => { exitCode := 2, stdout := [], stderr := some e }
  | Except.ok args => { exitCode := 0, stdout := runMain args, stderr := none }

/-- Value of a hexadecimal digit, used by the JSON `\uXXXX` escape. -/
def hexDigitVal (c : Char) : Option Nat :=
  if '0' ≤ c ∧ c ≤ '9' then some (c.toNat - 48)
  else if 'a' ≤ c ∧ c ≤ 'f' then some (c.toNat - 87)
  else if 'A' ≤ c ∧ c ≤ 'F' then some (c.toNat - 55)
  else none

/-- The character denoted by a one-character JSON escape `\c`
(RFC 8259, section 7). -/
def jsonEscapeChar (c : Char) : Option Char :=
  if c = '"' then some '"'
  else if c = '\\' then some '\\'
  else if c = '/' then some '/'
  else if c = 'b' then some (Char.ofNat 8)
  else if c = 'f' then some (Char.ofNat 12)
  else if c = 'n' then some (Char.ofNat 10)
  else if c = 'r' then some (Char.ofNat 13)
  else if c = 't' then some (Char.ofNat 9)
  else none

/-- Reference decoder for the tail of a JSON string literal after the opening
quote, per the string grammar of RFC 8259, section 7: an unescaped `"` must
close the literal and end the input, backslash escapes and `\uXXXX` (outside
the surrogate range; surrogate pairs are not combined) are decoded, and
unescaped control characters below U+0020 are rejected. This definition is
not part of `src/app.py`; it states what "a valid JSON string encoding"
means when judging the hand-rolled serializer. -/
def jsonStringRest : List Char → Option (List Char)
  | [] => none
  | '\\' :: 'u' :: h1 :: h2 :: h3 :: h4 :: rest =>
    match hexDigitVal h1, hexDigitVal h2, hexDigitVal h3, hexDigitVal h4 with
    | some a, some b, some c, some d =>
      let n := ((a * 16 + b) * 16 + c) * 16 + d
      if n < 55296 ∨ 57343 < n then
        (jsonStringRest rest).map (fun tail => Char.ofNat n :: tail)
      else none
    | _, _, _, _ => none
  | ['\\'] => none
  | '\\' :: e :: rest =>
    match jsonEscapeChar e with
    | some d => (jsonStringRest rest).map (fun tail => d :: tail)
    | none => none
  | c :: rest =>
    if c = '"' then if rest = [] then some [] else none
    else if c.toNat < 32 then none
    else (jsonStringRest rest).map (fun tail => c :: tail)

/-- Reference decoder for a whole JSON string literal: an opening quote, then
`jsonStringRest`. `jsonStringDecode enc = some s` says that `enc` is a valid
JSON string literal denoting exactly `s`. -/
def jsonStringDecode : List Char → Option (List Char)
  | '"' :: rest => jsonStringRest rest
  | _ => none

/-- `enc` is a valid JSON string encoding of the string `s`. -/
def IsJsonStringEncoding (enc s : String) : Prop :=
  jsonStringDecode enc.data = some s.data

instance (enc s : String) : Decidable (IsJsonStringEncoding enc s) := by
  unfold IsJsonStringEncoding; infer_instance

/-! Helper lemmas. -/

/-- Replacing the one-character pattern `"` by `\"` acts independently on
each character of the scanned list. -/
theorem replaceList_single_quote (l : List Char) :
    replaceList ['"'] ['\\', '"'] l
      = (l.map (fun c => if c = '"' then ['\\', '"'] else [c])).flatten := by
  induction l with
  | nil => simp [replaceList]
  | cons c rest ih =>
    rw [replaceList]
    by_cases hc : c = '"'
    · subst hc
      simp [List.isPrefixOf, ih]
    · simp [List.isPrefixOf, hc, Ne.symm hc, ih]

/-- The serializer's escaping maps each `"` to `\"` and leaves every other
character unchanged. -/
theorem quoteEscape_eq (s : String) :
    quoteEscape s
      = String.mk ((s.data.map (fun c => if c = '"' then ['\\', '"'] else [c])).flatten) :=
  congrArg String.mk (replaceList_single_quote s.data)

/-- `setValue` never touches the `custom` flag. -/
theorem setValue_custom {t v : String} {a a2 : Args} (h : setValue t v a = some a2) :
    a2.custom = a.custom := by
  unfold setValue at h
  split_ifs at h <;>
    first
      | exact Option.noConfusion h
      | (injection h with hh; subst hh; rfl)

/-- `setValue` sets `profile` exactly for the token `--profile`. -/
theorem setValue_profile {t v : String} {a a2 : Args} (h : setValue t v a = some a2) :
    a2.profile = if t = "--profile" then some v else a.profile := by
  unfold setValue at h
  split_ifs at h <;>
    first
      | exact Option.noConfusion h
      | (injection h with hh; subst hh; simp [*])

/-- `setFlag` never touches the `profile` option. -/
theorem setFlag_profile {t : String} {a a2 : Args} (h : setFlag t a = some a2) :
    a2.profile = a.profile := by
  unfold setFlag at h
  split_ifs at h <;>
    first
      | exact Option.noConfusion h
      | (injection h with hh; subst hh; rfl)

/-- `setFlag` sets `custom` exactly for the token `--custom`. -/
theorem setFlag_custom {t : String} {a a2 : Args} (h : setFlag t a = some a2) :
    a2.custom = if t = "--custom" then true else a.custom := by
  unfold setFlag at h
  split_ifs at h <;>
    first
      | exact Option.noConfusion h
      | (injection h with hh; subst hh; simp [*])

/-- If both `--custom` and `--profile` remain to be read (or were already
recorded in the accumulated namespace, which never holds both), the parse
loop ends in an error: whichever of the two is reached second trips the
mutual-exclusion check, and a token standing where a value is expected must
not be option-like. -/
theorem parse_both_err (l : List String) (a : Args)
    (hinv : ¬(a.custom = true ∧ a.profile.isSome = true))
    (hc : "--custom" ∈ l ∨ a.custom = true)
    (hp : "--profile" ∈ l ∨ a.profile.isSome = true) :
    ∃ e, parseTokens l a = Except.error e := by
  induction l, a using parseTokens.induct with
  | case1 a =>
    simp only [List.not_mem_nil, false_or] at hc hp
    exact absurd ⟨hc, hp⟩ hinv
  | case2 t rest a h1 h2 =>
    obtain ⟨ht, hcu⟩ := h2
    subst ht
    refine ⟨"argument --profile: not allowed with argument --custom", ?_⟩
    rw [parseTokens.eq_def]
    simp [hcu]
  | case3 t a h1 h2 =>
    exact ⟨"argument " ++ t ++ ": expected one argument", by simp [parseTokens, h1, h2]⟩
  | case4 t a h1 h2 v rest2 h3 =>
    exact ⟨"argument " ++ t ++ ": expected one argument", by simp [parseTokens, h1, h2, h3]⟩
  | case5 t a h1 h2 v rest2 h3 a2 hset ih =>
    have hvc : v ≠ "--custom" := fun hv => h3 (by rw [hv]; rfl)
    have hvp : v ≠ "--profile" := fun hv => h3 (by rw [hv]; rfl)
    have htc : t ≠ "--custom" := by
      rcases h1 with h | h | h <;> simp [h]
    have hcustom := setValue_custom hset
    have hprofile := setValue_profile hset
    have hinv2 : ¬(a2.custom = true ∧ a2.profile.isSome = true) := by
      rw [hcustom, hprofile]
      by_cases hT : t = "--profile"
      · have hcu : a.custom = false := by
          cases hcc : a.custom
          · rfl
          · exact absurd ⟨hT, hcc⟩ h2
        simp [hT, hcu]
      · simp only [hT, ite_false]
        exact hinv
    have hc2 : "--custom" ∈ rest2 ∨ a2.custom = true := by
      rw [hcustom]
      rcases hc with h | h
      · rcases List.mem_cons.mp h with h' | h'
        · exact absurd h'.symm htc
        · rcases List.mem_cons.mp h' with h'' | h''
          · exact absurd h''.symm hvc
          · exact Or.inl h''
      · exact Or.inr h
    have hp2 : "--profile" ∈ rest2 ∨ a2.profile.isSome = true := by
      rw [hprofile]
      by_cases hT : t = "--profile"
      · simp [hT]
      · rcases hp with h | h
        · rcases List.mem_cons.mp h with h' | h'
          · exact absurd h'.symm hT
          · rcases List.mem_cons.mp h' with h'' | h''
            · exact absurd h''.symm hvp
            · simp only [hT, ite_false]
              exact Or.inl h''
        · simp only [hT, ite_false]
          exact Or.inr h
    obtain ⟨e, he⟩ := ih hinv2 hc2 hp2
    refine ⟨e, ?_⟩
    simpa [parseTokens, h1, h2, h3, hset] using he
  | case6 t a h1 h2 v rest2 h3 hset =>
    exfalso
    rcases h1 with h | h | h <;> (subst h; simp [setValue] at hset)
  | case7 t rest a h1 h2 =>
    obtain ⟨ht, hpr⟩ := h2
    subst ht
    refine ⟨"argument --custom: not allowed with argument --profile", ?_⟩
    rw [parseTokens.eq_def]
    simp only [h1, if_neg, ite_false]
    simp [hpr]
  | case8 t rest a h1 h2 a2 hset ih =>
    have hcustom := setFlag_custom hset
    have hprofile := setFlag_profile hset
    have htp : t ≠ "--profile" := fun hv => h1 (Or.inl hv)
    have hinv2 : ¬(a2.custom = true ∧ a2.profile.isSome = true) := by
      rw [hcustom, hprofile]
      by_cases hT : t = "--custom"
      · have hso : a.profile.isSome = false := by
          cases hss : a.profile.isSome
          · rfl
          · exact absurd ⟨hT, hss⟩ h2
        simp [hT, hso]
      · simp only [hT, ite_false]
        exact hinv
    have hc2 : "--custom" ∈ rest ∨ a2.custom = true := by
      rw [hcustom]
      by_cases hT : t = "--custom"
      · simp [hT]
      · rcases hc with h | h
        · rcases List.mem_cons.mp h with h' | h'
          · exact absurd h'.symm hT
          · simp only [hT, ite_false]
            exact Or.inl h'
        · simp only [hT, ite_false]
          exact Or.inr h
    have hp2 : "--profile" ∈ rest ∨ a2.profile.isSome = true := by
      rw [hprofile]
      rcases hp with h | h
      · rcases List.mem_cons.mp h with h' | h'
        · exact absurd h'.symm htp
        · exact Or.inl h'
      · exact Or.inr h
    obtain ⟨e, he⟩ := ih hinv2 hc2 hp2
    refine ⟨e, ?_⟩
    rw [parseTokens.eq_def]
    simp only [h1, h2, if_neg, ite_false, hset]
    exact he
  | case9 t rest a h1 h2 hset =>
    refine ⟨"unrecognized arguments: " ++ t, ?_⟩
    rw [parseTokens.eq_def]
    simp only [h1, h2, if_neg, ite_false, hset]

/-! Claim theorems. -/

/-- C1: for every profile (all 32 flag combinations, any name and
description), `score_profile` returns exactly the sum of the active weights
30/30/15/15/10 clamped to a maximum of 100, and the result lies in the
closed range [0, 100]. -/
theorem c1_score_formula (p : PrivacyProfile) :
    score_profile p =
      min ((if p.uses_zk then (30 : Int) else 0) + (if p.uses_fhe then 30 else 0)
        + (if p.open_source then 15 else 0) + (if p.audited then 15 else 0)
        + (if p.soundness_focus then 10 else 0)) 100
    ∧ 0 ≤ score_profile p ∧ score_profile p ≤ 100 := by
  rcases p with ⟨n, d, z, f, o, a, s⟩
  cases z <;> cases f <;> cases o <;> cases a <;> cases s <;>
    refine ⟨?_, ?_, ?_⟩ <;> simp [score_profile]

/-- C2: the scores of the three built-in registry profiles are 70 for
`aztec`, 55 for `zama`, and 55 for `soundness`. -/
theorem c2_builtin_scores :
    (getProfile "aztec").map score_profile = some 70 ∧
    (getProfile "zama").map score_profile = some 55 ∧
    (getProfile "soundness").map score_profile = some 55 :=
  ⟨rfl, rfl, rfl⟩

/-- C3 (amended): for every invocation whose arguments parse, where
`--list-profiles` is not set and `--profile` is set to a non-empty key whose
lower-cased form is not in the registry, the program prints the "unknown
profile" message followed by the `--list-profiles` listing, exits with
status 0, and computes no score and renders no profile. -/
theorem c3_unknown_profile_listing (argv : List String) (args : Args) (k : String)
    (hparse : parseTokens argv {} = Except.ok args)
    (hlist : args.list_profiles = false)
    (hk : args.profile = some k) (hne : k ≠ "")
    (hmiss : getProfile (pyLower k) = none) :
    runCli argv =
      { exitCode := 0,
        stdout := "Unknown profile key. Available options:" :: listProfilesLines,
        stderr := none } := by
  unfold runCli
  rw [hparse]
  simp [runMain, profileTruthy, hlist, hk, hne, hmiss]

/-- Witness for C3 (amended) at the concrete invocation
`--profile nosuch`. -/
theorem c3_unknown_profile_listing_witness :
    runCli ["--profile", "nosuch"] =
      { exitCode := 0,
        stdout := "Unknown profile key. Available options:" :: listProfilesLines,
        stderr := none } :=
  c3_unknown_profile_listing ["--profile", "nosuch"] { profile := some "nosuch" } "nosuch"
    rfl rfl rfl (by decide) rfl

/-- C3 counterexample: the invocation `--profile ""` sets `--profile` to a
key (the empty string) whose lower-cased form is not in the registry, yet
the program renders and scores a custom profile instead of printing the
"unknown profile" listing, because `if args.profile:` in `main` treats the
empty string as unset. -/
theorem c3_counterexample :
    runCli ["--profile", ""] =
      { exitCode := 0,
        stdout := [summarize_profile
          { name := "Custom Web3 project",
            description := "User-defined Web3 project privacy profile.",
            uses_zk := false, uses_fhe := false, open_source := false, audited := false,
            soundness_focus := false }],
        stderr := none } ∧
    runCli ["--profile", ""] ≠
      { exitCode := 0,
        stdout := "Unknown profile key. Available options:" :: listProfilesLines,
        stderr := none } := by
  refine ⟨rfl, ?_⟩
  decide

/-- C4: the registry holds exactly the three keys `aztec`, `zama`,
`soundness` in insertion order, with the exact field values of the source,
and the `--list-profiles` listing enumerates them in that order. -/
theorem c4_registry :
    PROFILES.map Prod.fst = ["aztec", "zama", "soundness"] ∧
    PROFILES.length = 3 ∧
    getProfile "aztec" = some
      { name := "Aztec-like L2",
        description := "Inspired by Aztec: zk rollup with privacy-preserving smart contracts.",
        uses_zk := true, uses_fhe := false, open_source := true, audited := true,
        soundness_focus := true } ∧
    getProfile "zama" = some
      { name := "Zama-like FHE stack",
        description := "Inspired by Zama: fully homomorphic encryption for Web3 and cryptography.",
        uses_zk := false, uses_fhe := true, open_source := true, audited := false,
        soundness_focus := true } ∧
    getProfile "soundness" = some
      { name := "Soundness-focused lab",
        description := "Inspired by soundness research labs: formal verification and proofs first.",
        uses_zk := true, uses_fhe := false, open_source := false, audited := true,
        soundness_focus := true } ∧
    listProfilesLines =
      ["Built-in example profiles related to Web3 privacy and soundness:",
       "- aztec: Aztec-like L2",
       "- zama: Zama-like FHE stack",
       "- soundness: Soundness-focused lab"] :=
  ⟨rfl, rfl, rfl, rfl, rfl, rfl⟩

/-- C5: for every profile the structured renderer emits the keys in the
exact order name, description, uses_zk, uses_fhe, open_source, audited,
soundness_focus, score; strings are double-quoted with internal double
quotes escaped, booleans are literal true/false, score is a bare integer,
one key per line with two-space indent and a trailing comma on every entry
but the last. -/
theorem c5_export_json_format (p : PrivacyProfile) :
    exportJsonParts p =
      ["\x7b",
       "  \"name\": " ++ ("\"" ++ quoteEscape p.name ++ "\"") ++ ",",
       "  \"description\": " ++ ("\"" ++ quoteEscape p.description ++ "\"") ++ ",",
       "  \"uses_zk\": " ++ (if p.uses_zk then "true" else "false") ++ ",",
       "  \"uses_fhe\": " ++ (if p.uses_fhe then "true" else "false") ++ ",",
       "  \"open_source\": " ++ (if p.open_source then "true" else "false") ++ ",",
       "  \"audited\": " ++ (if p.audited then "true" else "false") ++ ",",
       "  \"soundness_focus\": " ++ (if p.soundness_focus then "true" else "false") ++ ",",
       "  \"score\": " ++ toString (score_profile p),
       "\x7d"] ∧
    export_json p = String.intercalate "\n" (exportJsonParts p) := by
  constructor
  · simp [exportJsonParts, profileItems, jvalRender, List.enum]
  · rfl

/-- C6: built-in lookup lower-cases the supplied key before comparing it to
the registry, so `aztec`, `AZTEC` and `Aztec` all resolve to the same
built-in profile. -/
theorem c6_case_insensitive_lookup :
    (∀ (args : Args) (k : String), args.list_profiles = false → args.profile = some k →
        k ≠ "" →
        runMain args =
          (match getProfile (pyLower k) with
           | none => "Unknown profile key. Available options:" :: listProfilesLines
           | some p => renderLines args p)) ∧
    runCli ["--profile", "AZTEC"] = runCli ["--profile", "aztec"] ∧
    runCli ["--profile", "Aztec"] = runCli ["--profile", "aztec"] ∧
    (runCli ["--profile", "aztec"]).stdout =
      [summarize_profile
        { name := "Aztec-like L2",
          description := "Inspired by Aztec: zk rollup with privacy-preserving smart contracts.",
          uses_zk := true, uses_fhe := false, open_source := true, audited := true,
          soundness_focus := true }] := by
  refine ⟨fun args k hl hk hne => ?_, rfl, rfl, rfl⟩
  unfold runMain
  rw [hl, hk]
  simp [profileTruthy, hne]

/-- Witness for C6 at the concrete upper-case key `AZTEC`. -/
theorem c6_case_insensitive_lookup_witness :
    runMain { profile := some "AZTEC" } =
      renderLines { profile := some "AZTEC" }
        { name := "Aztec-like L2",
          description := "Inspired by Aztec: zk rollup with privacy-preserving smart contracts.",
          uses_zk := true, uses_fhe := false, open_source := true, audited := true,
          soundness_focus := true } := by
  rw [c6_case_insensitive_lookup.1 { profile := some "AZTEC" } "AZTEC" rfl rfl (by decide)]
  rfl

/-- C7: a custom profile built from arguments with no flags set has exactly
the fallback name and description, all five features false, and score 0;
and every custom profile has non-empty name and description. -/
theorem c7_custom_profile_defaults :
    profile_from_args {} =
      { name := "Custom Web3 project",
        description := "User-defined Web3 project privacy profile.",
        uses_zk := false, uses_fhe := false, open_source := false, audited := false,
        soundness_focus := false } ∧
    score_profile (profile_from_args {}) = 0 ∧
    ∀ args : Args, (profile_from_args args).name ≠ ""
      ∧ (profile_from_args args).description ≠ "" := by
  refine ⟨rfl, rfl, fun args => ⟨?_, ?_⟩⟩
  · unfold profile_from_args orDefault
    cases args.name with
    | none => simp
    | some s =>
      by_cases hs : s = "" <;> simp [hs]
  · unfold profile_from_args orDefault
    cases args.description with
    | none => simp
    | some s =>
      by_cases hs : s = "" <;> simp [hs]

/-- C8: every invocation whose argv supplies both the `--profile` and
`--custom` tokens aborts as a usage error: non-zero exit status (2), an
error message, and nothing printed to stdout. -/
theorem c8_mutually_exclusive (argv : List String)
    (hc : "--custom" ∈ argv) (hp : "--profile" ∈ argv) :
    ∃ e, runCli argv = { exitCode := 2, stdout := [], stderr := some e } := by
  obtain ⟨e, he⟩ := parse_both_err argv {} (by simp) (Or.inl hc) (Or.inl hp)
  exact ⟨e, by unfold runCli; rw [he]⟩

/-- Witness for C8 at the concrete invocation
`--profile aztec --custom`. -/
theorem c8_mutually_exclusive_witness :
    ∃ e, runCli ["--profile", "aztec", "--custom"]
      = { exitCode := 2, stdout := [], stderr := some e } :=
  c8_mutually_exclusive ["--profile", "aztec", "--custom"] (by simp) (by simp)

/-- C9: `score_profile` is monotone in each of the five boolean fields:
switching any one of them to true, the others unchanged, never lowers the
score. -/
theorem c9_score_monotone (p : PrivacyProfile) :
    score_profile p ≤ score_profile { p with uses_zk := true } ∧
    score_profile p ≤ score_profile { p with uses_fhe := true } ∧
    score_profile p ≤ score_profile { p with open_source := true } ∧
    score_profile p ≤ score_profile { p with audited := true } ∧
    score_profile p ≤ score_profile { p with soundness_focus := true } := by
  rcases p with ⟨n, d, z, f, o, a, s⟩
  cases z <;> cases f <;> cases o <;> cases a <;> cases s <;>
    refine ⟨?_, ?_, ?_, ?_, ?_⟩ <;> simp [score_profile]

/-- C10: the serializer's escaping replaces each double quote by
backslash-double-quote and leaves every other character (backslashes and
newlines included) unchanged; consequently for the profile named
`bad\nname` (a name holding a raw newline) the emitted name line carries
the raw newline and is not a valid JSON string encoding of that name, and
likewise a name with a backslash is emitted as text that no longer decodes
to it. -/
theorem c10_escape_quotes_only_not_json :
    (∀ s : String, quoteEscape s
        = String.mk ((s.data.map (fun c => if c = '"' then ['\\', '"'] else [c])).flatten)) ∧
    (exportJsonParts
        { name := "bad\nname", description := "d", uses_zk := false, uses_fhe := false,
          open_source := false, audited := false, soundness_focus := false }).get? 1
      = some "  \"name\": \"bad\nname\"," ∧
    ¬ IsJsonStringEncoding ("\"" ++ quoteEscape "bad\nname" ++ "\"") "bad\nname" ∧
    ¬ IsJsonStringEncoding ("\"" ++ quoteEscape "bad\\name" ++ "\"") "bad\\name" := by
  have h1 : quoteEscape "bad\nname" = "bad\nname" := by
    rw [quoteEscape_eq]
    rfl
  have h2 : quoteEscape "bad\\name" = "bad\\name" := by
    rw [quoteEscape_eq]
    rfl
  refine ⟨quoteEscape_eq, ?_, ?_, ?_⟩
  · simp [exportJsonParts, profileItems, jvalRender, List.enum, h1]
  · rw [h1]
    decide
  · rw [h2]
    decide

end Web3PrivacyScorer
